import Mathlib

/-!
Verification of the scope/state-machine layer in `src/scopes.rs` of the
imnodes wrapper. The underlying native subsystem (the `sys::imnodes_*`
calls) is an external collaborator: its query primitives are modelled as
explicit inputs (the boolean found-flag and the out-parameter values that
the native call leaves behind), and its begin/end bracket primitives are
modelled as events appended to an explicit trace. Blocks passed to the
region-entry functions may fail (a Rust panic), modelled with `Except`
carrying the panic message together with the trace of primitives already
invoked before the failure.
-/

namespace Imnodes

/-- Thin wrapper around a signed integer handle, mirroring `NodeId`. -/
structure NodeId where
  id : Int
deriving DecidableEq, Repr

/-- Thin wrapper around a signed integer handle, mirroring `LinkId`. -/
structure LinkId where
  id : Int
deriving DecidableEq, Repr

/-- Thin wrapper around a signed integer handle, mirroring `AttributeId`. -/
structure AttributeId where
  id : Int
deriving DecidableEq, Repr

/-- Thin wrapper around a signed integer handle, mirroring `InputPinId`. -/
structure InputPinId where
  id : Int
deriving DecidableEq, Repr

/-- Thin wrapper around a signed integer handle, mirroring `OutputPinId`. -/
structure OutputPinId where
  id : Int
deriving DecidableEq, Repr

/-- Pin identifier as constructed by the getters in `scopes.rs`
(`PinId { id }`). -/
structure PinId where
  id : Int
deriving DecidableEq, Repr

/-- The `Link` value returned by `links_created`, field names as in the
source (including the misspelled `craeated_from_snap`). -/
structure Link where
  start_node : NodeId
  end_node : NodeId
  start_pin : OutputPinId
  end_pin : InputPinId
  craeated_from_snap : Bool
deriving DecidableEq, Repr

/-- The editor context; its only operation used by this layer is becoming
the process-wide current context, so it is modelled by an identity tag. -/
structure EditorContext where
  ctxId : Nat
deriving DecidableEq, Repr

/-- Scope token for code outside any region (`Scope_None`). -/
structure ScopeNone where
deriving DecidableEq, Repr

/-- Scope token for code inside the editor region (`Scope_Editor`). -/
structure ScopeEditor where
deriving DecidableEq, Repr

/-- Scope token for code inside a node region (`Scope_Node`). -/
structure ScopeNode where
deriving DecidableEq, Repr

/-- Rust `num as u32` cast of an `i32` value, as an explicit modulus. -/
def i32_as_u32 (n : Int) : Nat :=
  (n % 4294967296).toNat

/-- A Rust panic, carrying the panic message. -/
abbrev Panic := String

/-! ## Optional-returning queries of `ScopeNone`

Each getter receives the result of its native query primitive as explicit
arguments: `found` is the boolean the primitive returned, `out` is the value
the out-parameter holds after the call (the local is initialised to `-1`
before the call, so `out = -1` whenever the primitive leaves it untouched).
-/

/-- `ScopeNone::get_dropped_link` (native `IsLinkDestroyed`). -/
def ScopeNone.get_dropped_link (_s : ScopeNone) (found : Bool) (out : Int) :
    Option LinkId :=
  if found then some { id := out } else none

/-- `ScopeNone::get_hovered_pin` (native `IsPinHovered`). -/
def ScopeNone.get_hovered_pin (_s : ScopeNone) (found : Bool) (out : Int) :
    Option PinId :=
  if found then some { id := out } else none

/-- `ScopeNone::get_hovered_link` (native `IsLinkHovered`). -/
def ScopeNone.get_hovered_link (_s : ScopeNone) (found : Bool) (out : Int) :
    Option LinkId :=
  if found then some { id := out } else none

/-- `ScopeNone::get_active_attribute` (native `IsAnyAttributeActive`). -/
def ScopeNone.get_active_attribute (_s : ScopeNone) (found : Bool) (out : Int) :
    Option AttributeId :=
  if found then some { id := out } else none

/-- `ScopeNone::from_where_link_started` (native `IsLinkStarted`). -/
def ScopeNone.from_where_link_started (_s : ScopeNone) (found : Bool) (out : Int) :
    Option PinId :=
  if found then some { id := out } else none

/-- `ScopeNone::from_where_link_dropped` (native `IsLinkDropped`); the
`including_detached_links` flag is forwarded to the native call and does not
otherwise influence the translation. -/
def ScopeNone.from_where_link_dropped (_s : ScopeNone)
    (_including_detached_links : Bool) (found : Bool) (out : Int) :
    Option PinId :=
  if found then some { id := out } else none

/-- `ScopeEditor.get_active_attribute` (native `IsAnyAttributeActive`),
the editor-scope copy of the same translation. -/
def ScopeEditor.get_active_attribute (_s : ScopeEditor) (found : Bool)
    (out : Int) : Option AttributeId :=
  if found then some { id := out } else none

/-- `ScopeNone::links_created` (native `IsLinkCreatedIntPtr`): the five
out-parameters after the call are passed explicitly; the locals start as
`-1` (ids) and `true` (snap flag) before the call. -/
def ScopeNone.links_created (_s : ScopeNone) (is_created : Bool)
    (started_at_node_id : Int) (started_at_attribute_id : Int)
    (ended_at_node_id : Int) (ended_at_attribute_id : Int)
    (created_from_snap : Bool) : Option Link :=
  if is_created then
    some { start_node := { id := started_at_node_id }
           end_node := { id := ended_at_node_id }
           start_pin := { id := started_at_attribute_id }
           end_pin := { id := ended_at_attribute_id }
           craeated_from_snap := created_from_snap }
  else
    none

/-! ## Selection counts and retrieval -/

/-- `ScopeNone::num_selected_nodes`: reads the native count, asserts it is
positive (a Rust `assert!`, modelled as a `Panic`), then casts to `u32`. -/
def ScopeNone.num_selected_nodes (_s : ScopeNone) (sys_num : Int) :
    Except Panic Nat :=
  if sys_num > 0 then Except.ok (i32_as_u32 sys_num)
  else Except.error "assertion failed: num > 0"

/-- `ScopeNone::num_selected_links`: same shape as the node count. -/
def ScopeNone.num_selected_links (_s : ScopeNone) (sys_num : Int) :
    Except Panic Nat :=
  if sys_num > 0 then Except.ok (i32_as_u32 sys_num)
  else Except.error "assertion failed: num > 0"

/-- The native bulk-retrieval call writing the subsystem's selection into a
caller-provided buffer: it overwrites a prefix of the buffer with the values
it reports, leaving the rest of the buffer (and its length) unchanged. -/
def overwritePrefix {a : Type} : List a → List a → List a
  | buf, [] => buf
  | [], _ => []
  | _ :: buf, v :: vs => v :: overwritePrefix buf vs

/-- `ScopeNone::selected_nodes`: sizes a zero-initialised buffer by
`num_selected_nodes` (propagating its assertion failure) and has the native
`GetSelectedNodes` fill it; `sys_sel` is the id sequence the subsystem
writes. -/
def ScopeNone.selected_nodes (s : ScopeNone) (sys_num : Int)
    (sys_sel : List Int) : Except Panic (List NodeId) :=
  match s.num_selected_nodes sys_num with
  | Except.error e => Except.error e
  | Except.ok nr_nodes =>
      Except.ok (overwritePrefix (List.replicate nr_nodes { id := 0 })
        (sys_sel.map fun i => { id := i }))

/-- `ScopeNone::selected_links`: symmetric to `selected_nodes`. -/
def ScopeNone.selected_links (s : ScopeNone) (sys_num : Int)
    (sys_sel : List Int) : Except Panic (List LinkId) :=
  match s.num_selected_links sys_num with
  | Except.error e => Except.error e
  | Except.ok nr_links =>
      Except.ok (overwritePrefix (List.replicate nr_links { id := 0 })
        (sys_sel.map fun i => { id := i }))

/-! ## Region brackets as a trace of native primitives -/

/-- One invocation of a native primitive relevant to region nesting: the
begin/end bracket calls, the current-context registration, and the
non-bracketed `Link` declaration. -/
inductive SysEvent where
  | setCurrentContext (ctx : Nat)
  | beginNodeEditor
  | endNodeEditor
  | beginNode (id : Int)
  | endNode
  | beginNodeTitleBar
  | endNodeTitleBar
  | beginInputAttribute (id : Int) (shape : Int)
  | endInputAttribute
  | beginOutputAttribute (id : Int) (shape : Int)
  | endOutputAttribute
  | beginStaticAttribute (id : Int)
  | endStaticAttribute
  | linkDecl (id : Int) (input : Int) (output : Int)
deriving DecidableEq, Repr

/-- The call-order log of native primitive invocations. -/
abbrev Trace := List SysEvent

/-- A caller-supplied block: it extends the trace with whatever primitives
it invokes, or fails (a Rust panic), in which case the trace of primitives
already invoked up to the failure accompanies the panic. -/
abbrev Block (tok : Type) := Trace → tok → Except (Panic × Trace) Trace

/-- The entry point `editor(context, f)`: registers the context as current,
opens the outermost region, runs the block with a fresh `ScopeEditor` token,
closes the region, and returns a `ScopeNone` token. If the block fails, the
failure propagates directly and `EndNodeEditor` is not invoked (the source
has no unwind guard). -/
def editor (context : EditorContext) (f : Block ScopeEditor) (t : Trace) :
    Except (Panic × Trace) (Trace × ScopeNone) :=
  let t1 := t ++ [SysEvent.setCurrentContext context.ctxId]
  let t2 := t1 ++ [SysEvent.beginNodeEditor]
  match f t2 {} with
  | Except.error e => Except.error e
  | Except.ok t3 => Except.ok (t3 ++ [SysEvent.endNodeEditor], {})

/-- `ScopeEditor::node(id, f)`: `BeginNode`, run the block with a fresh
`ScopeNode` token, `EndNode`. -/
def ScopeEditor.node (_s : ScopeEditor) (id : NodeId) (f : Block ScopeNode)
    (t : Trace) : Except (Panic × Trace) Trace :=
  let t1 := t ++ [SysEvent.beginNode id.id]
  match f t1 {} with
  | Except.error e => Except.error e
  | Except.ok t2 => Except.ok (t2 ++ [SysEvent.endNode])

/-- `ScopeEditor::add_link(id, input, output)`: the non-bracketed native
`Link` declaration. -/
def ScopeEditor.add_link (_s : ScopeEditor) (id : LinkId) (input : InputPinId)
    (output : OutputPinId) (t : Trace) : Trace :=
  t ++ [SysEvent.linkDecl id.id input.id output.id]

/-- `ScopeNode::add_titlebar(f)`: `BeginNodeTitleBar`, run the tokenless
block, `EndNodeTitleBar`. -/
def ScopeNode.add_titlebar (_s : ScopeNode) (f : Block Unit) (t : Trace) :
    Except (Panic × Trace) Trace :=
  let t1 := t ++ [SysEvent.beginNodeTitleBar]
  match f t1 () with
  | Except.error e => Except.error e
  | Except.ok t2 => Except.ok (t2 ++ [SysEvent.endNodeTitleBar])

/-- `ScopeNode::add_input(id, shape, f)`: `BeginInputAttribute`, run the
tokenless block, `EndInputAttribute`. The `PinShape` enum is carried as its
`i32` representation. -/
def ScopeNode.add_input (_s : ScopeNode) (id : InputPinId) (shape : Int)
    (f : Block Unit) (t : Trace) : Except (Panic × Trace) Trace :=
  let t1 := t ++ [SysEvent.beginInputAttribute id.id shape]
  match f t1 () with
  | Except.error e => Except.error e
  | Except.ok t2 => Except.ok (t2 ++ [SysEvent.endInputAttribute])

/-- `ScopeNode::add_output(id, shape, f)`: `BeginOutputAttribute`, run the
tokenless block, `EndOutputAttribute`. -/
def ScopeNode.add_output (_s : ScopeNode) (id : OutputPinId) (shape : Int)
    (f : Block Unit) (t : Trace) : Except (Panic × Trace) Trace :=
  let t1 := t ++ [SysEvent.beginOutputAttribute id.id shape]
  match f t1 () with
  | Except.error e => Except.error e
  | Except.ok t2 => Except.ok (t2 ++ [SysEvent.endOutputAttribute])

/-- `ScopeNode::attribute(id, f)`: `BeginStaticAttribute`, run the tokenless
block, `EndStaticAttribute`. -/
def ScopeNode.attribute_stat (_s : ScopeNode) (id : AttributeId)
    (f : Block Unit) (t : Trace) : Except (Panic × Trace) Trace :=
  let t1 := t ++ [SysEvent.beginStaticAttribute id.id]
  match f t1 () with
  | Except.error e => Except.error e
  | Except.ok t2 => Except.ok (t2 ++ [SysEvent.endStaticAttribute])

/-! ## Programs built from the public operations

A program is an arbitrary nesting of the public region operations whose
blocks run to completion; the tokenless sub-region blocks perform only
presentation work (they invoke none of the traced primitives), as the
design prescribes. -/

/-- An operation available on a `ScopeNode` token. -/
inductive NodeOp where
  | titlebar
  | input (id : Int) (shape : Int)
  | output (id : Int) (shape : Int)
  | staticAttr (id : Int)
deriving DecidableEq, Repr

/-- An operation available on a `ScopeEditor` token. -/
inductive EditorOp where
  | node (id : Int) (body : List NodeOp)
  | addLink (id : Int) (input : Int) (output : Int)
deriving DecidableEq, Repr

/-- A program: a sequence of `editor` calls, each with the operations its
block performs on the received token. -/
abbrev Prog := List (Nat × List EditorOp)

/-- The do-nothing tokenless block (pure presentation work). -/
def pureBlock : Block Unit := fun t _ => Except.ok t

/-- Run one `NodeOp` through the corresponding public operation. -/
def runNodeOp (sn : ScopeNode) (op : NodeOp) (t : Trace) :
    Except (Panic × Trace) Trace :=
  match op with
  | NodeOp.titlebar => sn.add_titlebar pureBlock t
  | NodeOp.input i sh => sn.add_input { id := i } sh pureBlock t
  | NodeOp.output i sh => sn.add_output { id := i } sh pureBlock t
  | NodeOp.staticAttr i => sn.attribute_stat { id := i } pureBlock t

/-- Run a sequence of `NodeOp`s in order. -/
def runNodeOps (sn : ScopeNode) (ops : List NodeOp) (t : Trace) :
    Except (Panic × Trace) Trace :=
  match ops with
  | [] => Except.ok t
  | op :: rest =>
      match runNodeOp sn op t with
      | Except.error e => Except.error e
      | Except.ok t1 => runNodeOps sn rest t1

/-- Run one `EditorOp` through the corresponding public operation. -/
def runEditorOp (se : ScopeEditor) (op : EditorOp) (t : Trace) :
    Except (Panic × Trace) Trace :=
  match op with
  | EditorOp.node i body => se.node { id := i } (fun tr sn => runNodeOps sn body tr) t
  | EditorOp.addLink i inp outp =>
      Except.ok (se.add_link { id := i } { id := inp } { id := outp } t)

/-- Run a sequence of `EditorOp`s in order. -/
def runEditorOps (se : ScopeEditor) (ops : List EditorOp) (t : Trace) :
    Except (Panic × Trace) Trace :=
  match ops with
  | [] => Except.ok t
  | op :: rest =>
      match runEditorOp se op t with
      | Except.error e => Except.error e
      | Except.ok t1 => runEditorOps se rest t1

/-- Run a whole program through `editor`. -/
def runProg (p : Prog) (t : Trace) : Except (Panic × Trace) Trace :=
  match p with
  | [] => Except.ok t
  | (ctx, ops) :: rest =>
      match editor { ctxId := ctx } (fun tr se => runEditorOps se ops tr) t with
      | Except.error e => Except.error e
      | Except.ok (t1, _) => runProg rest t1

/-! ## Well-nestedness of the emitted begin/end sequence -/

/-- The kind of region a bracket primitive opens or closes. -/
inductive RegionKind where
  | editorR
  | nodeR
  | titleBarR
  | inputR
  | outputR
  | staticR
deriving DecidableEq, Repr

/-- The region a given primitive opens, if any. -/
def opensRegion : SysEvent → Option RegionKind
  | SysEvent.beginNodeEditor => some RegionKind.editorR
  | SysEvent.beginNode _ => some RegionKind.nodeR
  | SysEvent.beginNodeTitleBar => some RegionKind.titleBarR
  | SysEvent.beginInputAttribute _ _ => some RegionKind.inputR
  | SysEvent.beginOutputAttribute _ _ => some RegionKind.outputR
  | SysEvent.beginStaticAttribute _ => some RegionKind.staticR
  | _ => none

/-- The region a given primitive closes, if any. -/
def closesRegion : SysEvent → Option RegionKind
  | SysEvent.endNodeEditor => some RegionKind.editorR
  | SysEvent.endNode => some RegionKind.nodeR
  | SysEvent.endNodeTitleBar => some RegionKind.titleBarR
  | SysEvent.endInputAttribute => some RegionKind.inputR
  | SysEvent.endOutputAttribute => some RegionKind.outputR
  | SysEvent.endStaticAttribute => some RegionKind.staticR
  | _ => none

/-- Stack automaton over a trace: a begin pushes its region kind, an end
must pop exactly the most recently opened kind (strict LIFO); the result is
the final stack of still-open regions, or `none` on a mismatched or
unmatched end. -/
def checkStack (st : List RegionKind) : Trace → Option (List RegionKind)
  | [] => some st
  | e :: rest =>
      match opensRegion e with
      | some k => checkStack (k :: st) rest
      | none =>
          match closesRegion e with
          | some k =>
              match st with
              | [] => none
              | k0 :: st0 => if k = k0 then checkStack st0 rest else none
          | none => checkStack st rest

/-- A trace is well-nested when, started from no open region, every end
matches the most recent open and no region is left open. -/
def wellNested (t : Trace) : Prop :=
  checkStack [] t = some []

instance (t : Trace) : Decidable (wellNested t) := by
  unfold wellNested
  infer_instance

/-- The primitive calls one `NodeOp` emits. -/
def nodeOpTrace : NodeOp → Trace
  | NodeOp.titlebar => [SysEvent.beginNodeTitleBar, SysEvent.endNodeTitleBar]
  | NodeOp.input i sh => [SysEvent.beginInputAttribute i sh, SysEvent.endInputAttribute]
  | NodeOp.output i sh => [SysEvent.beginOutputAttribute i sh, SysEvent.endOutputAttribute]
  | NodeOp.staticAttr i => [SysEvent.beginStaticAttribute i, SysEvent.endStaticAttribute]

/-- The primitive calls a `NodeOp` sequence emits. -/
def nodeOpsTrace : List NodeOp → Trace
  | [] => []
  | op :: rest => nodeOpTrace op ++ nodeOpsTrace rest

/-- The primitive calls one `EditorOp` emits. -/
def editorOpTrace : EditorOp → Trace
  | EditorOp.node i body =>
      SysEvent.beginNode i :: (nodeOpsTrace body ++ [SysEvent.endNode])
  | EditorOp.addLink i inp outp => [SysEvent.linkDecl i inp outp]

/-- The primitive calls an `EditorOp` sequence emits. -/
def editorOpsTrace : List EditorOp → Trace
  | [] => []
  | op :: rest => editorOpTrace op ++ editorOpsTrace rest

/-- The primitive calls a whole program emits. -/
def progTrace : Prog → Trace
  | [] => []
  | (c, ops) :: rest =>
      SysEvent.setCurrentContext c :: SysEvent.beginNodeEditor ::
        (editorOpsTrace ops ++ [SysEvent.endNodeEditor]) ++ progTrace rest

/-! ## Helper lemmas -/

theorem overwritePrefix_length {a : Type} (buf vs : List a) :
    (overwritePrefix buf vs).length = buf.length := by
  induction buf generalizing vs with
  | nil => cases vs <;> simp [overwritePrefix]
  | cons x buf ih =>
      cases vs with
      | nil => simp [overwritePrefix]
      | cons v vs => simp [overwritePrefix, ih]

theorem editor_eq (context : EditorContext) (f : Block ScopeEditor) (t : Trace) :
    editor context f t =
      match f (t ++ [SysEvent.setCurrentContext context.ctxId,
          SysEvent.beginNodeEditor]) {} with
      | Except.error e => Except.error e
      | Except.ok t3 => Except.ok (t3 ++ [SysEvent.endNodeEditor], {}) := by
  simp [editor]

theorem checkStack_append (t1 t2 : Trace) : ∀ st : List RegionKind,
    checkStack st (t1 ++ t2) =
      Option.bind (checkStack st t1) (fun st1 => checkStack st1 t2) := by
  induction t1 with
  | nil => intro st; simp [checkStack]
  | cons e rest ih =>
      intro st
      simp only [List.cons_append, checkStack]
      cases h : opensRegion e with
      | some k => simp [ih]
      | none =>
          simp only []
          cases h2 : closesRegion e with
          | some k =>
              cases st with
              | nil => simp
              | cons k0 st0 =>
                  by_cases hk : k = k0
                  · simp [hk, ih]
                  · simp [hk]
          | none => simp [ih]

theorem runNodeOp_eq (sn : ScopeNode) (op : NodeOp) (t : Trace) :
    runNodeOp sn op t = Except.ok (t ++ nodeOpTrace op) := by
  cases op <;>
    simp [runNodeOp, nodeOpTrace, ScopeNode.add_titlebar, ScopeNode.add_input,
      ScopeNode.add_output, ScopeNode.attribute_stat, pureBlock]

theorem runNodeOps_eq (sn : ScopeNode) (ops : List NodeOp) (t : Trace) :
    runNodeOps sn ops t = Except.ok (t ++ nodeOpsTrace ops) := by
  induction ops generalizing t with
  | nil => simp [runNodeOps, nodeOpsTrace]
  | cons op rest ih =>
      simp [runNodeOps, nodeOpsTrace, runNodeOp_eq, ih]

theorem runEditorOp_eq (se : ScopeEditor) (op : EditorOp) (t : Trace) :
    runEditorOp se op t = Except.ok (t ++ editorOpTrace op) := by
  cases op with
  | node i body =>
      simp [runEditorOp, editorOpTrace, ScopeEditor.node, runNodeOps_eq]
  | addLink i inp outp =>
      simp [runEditorOp, editorOpTrace, ScopeEditor.add_link]

theorem runEditorOps_eq (se : ScopeEditor) (ops : List EditorOp) (t : Trace) :
    runEditorOps se ops t = Except.ok (t ++ editorOpsTrace ops) := by
  induction ops generalizing t with
  | nil => simp [runEditorOps, editorOpsTrace]
  | cons op rest ih =>
      simp [runEditorOps, editorOpsTrace, runEditorOp_eq, ih]

theorem runProg_eq (p : Prog) (t : Trace) :
    runProg p t = Except.ok (t ++ progTrace p) := by
  induction p generalizing t with
  | nil => simp [runProg, progTrace]
  | cons hd rest ih =>
      obtain ⟨c, ops⟩ := hd
      simp [runProg, progTrace, editor_eq, runEditorOps_eq, ih]

theorem checkStack_nodeOpTrace (op : NodeOp) (st : List RegionKind) :
    checkStack st (nodeOpTrace op) = some st := by
  cases op <;> simp [nodeOpTrace, checkStack, opensRegion, closesRegion]

theorem checkStack_nodeOpsTrace (ops : List NodeOp) (st : List RegionKind) :
    checkStack st (nodeOpsTrace ops) = some st := by
  induction ops with
  | nil => simp [nodeOpsTrace, checkStack]
  | cons op rest ih =>
      simp [nodeOpsTrace, checkStack_append, checkStack_nodeOpTrace, ih]

theorem checkStack_editorOpTrace (op : EditorOp) (st : List RegionKind) :
    checkStack st (editorOpTrace op) = some st := by
  cases op with
  | node i body =>
      simp [editorOpTrace, checkStack, opensRegion, closesRegion,
        checkStack_append, checkStack_nodeOpsTrace]
  | addLink i inp outp =>
      simp [editorOpTrace, checkStack, opensRegion, closesRegion]

theorem checkStack_editorOpsTrace (ops : List EditorOp) (st : List RegionKind) :
    checkStack st (editorOpsTrace ops) = some st := by
  induction ops with
  | nil => simp [editorOpsTrace, checkStack]
  | cons op rest ih =>
      simp [editorOpsTrace, checkStack_append, checkStack_editorOpTrace, ih]

theorem checkStack_progTrace (p : Prog) (st : List RegionKind) :
    checkStack st (progTrace p) = some st := by
  induction p with
  | nil => simp [progTrace, checkStack]
  | cons hd rest ih =>
      obtain ⟨c, ops⟩ := hd
      simp [progTrace, checkStack, opensRegion, closesRegion,
        checkStack_append, checkStack_editorOpsTrace, ih]

/-! ## Claims -/

/-- Claim C1, counterexample: the claim that `editor` always invokes the
end-editor primitive even when the block fails is false — a block that
signals an error makes `editor` propagate the failure with a primitive
trace that never contains `endNodeEditor`. -/
theorem claim_C1_counterexample :
    editor { ctxId := 0 } (fun tr _ => Except.error ("panic", tr)) [] =
      Except.error ("panic",
        [SysEvent.setCurrentContext 0, SysEvent.beginNodeEditor]) ∧
    SysEvent.endNodeEditor ∉
      [SysEvent.setCurrentContext 0, SysEvent.beginNodeEditor] := by
  exact ⟨rfl, by decide⟩

/-- Claim C1 (amended): `editor` closes the outermost region exactly when
the block returns normally; when the block signals a failure, the failure
propagates to the caller without the close step running (the source
installs no unwind guard). -/
theorem claim_C1_amended (context : EditorContext) (t : Trace)
    (f : Block ScopeEditor) :
    (∀ t2, f (t ++ [SysEvent.setCurrentContext context.ctxId,
        SysEvent.beginNodeEditor]) {} = Except.ok t2 →
      editor context f t = Except.ok (t2 ++ [SysEvent.endNodeEditor], {})) ∧
    (∀ e, f (t ++ [SysEvent.setCurrentContext context.ctxId,
        SysEvent.beginNodeEditor]) {} = Except.error e →
      editor context f t = Except.error e) := by
  constructor
  · intro t2 h
    rw [editor_eq, h]
  · intro e h
    rw [editor_eq, h]

/-- Claim C1, witness for the amended theorem at a concrete block. -/
theorem claim_C1_witness :
    editor { ctxId := 0 } (fun tr _ => Except.ok tr) [] =
      Except.ok ([SysEvent.setCurrentContext 0, SysEvent.beginNodeEditor,
        SysEvent.endNodeEditor], {}) :=
  (claim_C1_amended { ctxId := 0 } [] (fun tr _ => Except.ok tr)).1
    [SysEvent.setCurrentContext 0, SysEvent.beginNodeEditor] rfl

/-- Claim C3: `editor(context, block)` registers the context first, then
opens the outermost region, runs the block with a fresh `ScopeEditor`
token, closes the region afterwards, and returns a `ScopeNone` token — for
every context, every starting trace and every normally-returning block
(in particular however many node regions the block opened). -/
theorem claim_C3 (context : EditorContext)
    (g : Trace → ScopeEditor → Trace) (t : Trace) :
    editor context (fun tr se => Except.ok (g tr se)) t =
      Except.ok
        (g (t ++ [SysEvent.setCurrentContext context.ctxId,
            SysEvent.beginNodeEditor]) {} ++ [SysEvent.endNodeEditor],
          ({} : ScopeNone)) := by
  rw [editor_eq]

/-- Claim C4: every optional-returning query translates a native result of
found-flag `false` with out-value `-1` into an absent optional; the `-1`
sentinel is never wrapped into an ID. -/
theorem claim_C4 (s : ScopeNone) (b : Bool) :
    s.get_dropped_link false (-1) = none ∧
    s.get_hovered_pin false (-1) = none ∧
    s.get_hovered_link false (-1) = none ∧
    s.get_active_attribute false (-1) = none ∧
    s.from_where_link_started false (-1) = none ∧
    s.from_where_link_dropped b false (-1) = none ∧
    s.links_created false (-1) (-1) (-1) (-1) true = none := by
  simp [ScopeNone.get_dropped_link, ScopeNone.get_hovered_pin,
    ScopeNone.get_hovered_link, ScopeNone.get_active_attribute,
    ScopeNone.from_where_link_started, ScopeNone.from_where_link_dropped,
    ScopeNone.links_created]

/-- Claim C5: invoking `selected_nodes` (resp. `selected_links`) when the
native selection count is zero fails the `num > 0` assertion, aborting with
a diagnostic naming the violated precondition instead of silently returning
an empty collection. -/
theorem claim_C5 (s : ScopeNone) (selN selL : List Int) :
    s.selected_nodes 0 selN = Except.error "assertion failed: num > 0" ∧
    s.selected_links 0 selL = Except.error "assertion failed: num > 0" := by
  constructor <;>
    simp [ScopeNone.selected_nodes, ScopeNone.selected_links,
      ScopeNone.num_selected_nodes, ScopeNone.num_selected_links]

/-- Claim C6, counterexample: `num_selected_nodes` does not return the
count for every value the native primitive reports — at a reported count of
`0` it fails the assertion instead of returning `0`. -/
theorem claim_C6_counterexample :
    ScopeNone.num_selected_nodes {} 0 ≠ Except.ok 0 := by
  simp [ScopeNone.num_selected_nodes]

/-- Claim C6 (amended): `num_selected_nodes` and `num_selected_links`
return the count the native primitive reports whenever that count is
positive (any `i32` value above zero); a count of zero fails the
assertion instead of being returned. -/
theorem claim_C6 (n : Int) (h1 : 0 < n) (h2 : n < 2147483648) :
    ScopeNone.num_selected_nodes {} n = Except.ok n.toNat ∧
    ScopeNone.num_selected_links {} n = Except.ok n.toNat := by
  have hmod : n % 4294967296 = n := Int.emod_eq_of_lt h1.le (by omega)
  constructor <;>
    simp [ScopeNone.num_selected_nodes, ScopeNone.num_selected_links,
      i32_as_u32, h1, hmod]

/-- Claim C6, witness at a reported count of 3. -/
theorem claim_C6_witness :
    0 < (3 : Int) ∧ (3 : Int) < 2147483648 ∧
      ScopeNone.num_selected_nodes {} 3 = Except.ok (Int.toNat 3) ∧
      ScopeNone.num_selected_links {} 3 = Except.ok (Int.toNat 3) :=
  ⟨by norm_num, by norm_num,
    (claim_C6 3 (by norm_num) (by norm_num)).1,
    (claim_C6 3 (by norm_num) (by norm_num)).2⟩

/-- Claim C8: `links_created` is present exactly when the native
link-created query reports true, and then carries the reported start node,
end node, start pin (output), end pin (input) and snap flag; otherwise it
is absent. -/
theorem claim_C8 (s : ScopeNone) (n1 a1 n2 a2 : Int) (snap : Bool) :
    s.links_created true n1 a1 n2 a2 snap =
      some { start_node := { id := n1 }, end_node := { id := n2 },
             start_pin := { id := a1 }, end_pin := { id := a2 },
             craeated_from_snap := snap } ∧
    s.links_created false n1 a1 n2 a2 snap = none := by
  constructor <;> simp [ScopeNone.links_created]

/-- Claim C9: whenever `num_selected_nodes` returns a count `n`,
`selected_nodes` returns a list of exactly `n` node IDs, built from a
buffer allocated with length `n` and filled by the subsystem; and
symmetrically for links. -/
theorem claim_C9 (s : ScopeNone) (numN numL : Int) (n m : Nat)
    (selN selL : List Int)
    (hn : s.num_selected_nodes numN = Except.ok n)
    (hm : s.num_selected_links numL = Except.ok m) :
    ∃ ns ls,
      s.selected_nodes numN selN = Except.ok ns ∧ ns.length = n ∧
      ns = overwritePrefix (List.replicate n { id := 0 })
        (selN.map fun i => { id := i }) ∧
      s.selected_links numL selL = Except.ok ls ∧ ls.length = m ∧
      ls = overwritePrefix (List.replicate m { id := 0 })
        (selL.map fun i => { id := i }) := by
  refine ⟨_, _, ?_, ?_, rfl, ?_, ?_, rfl⟩
  · simp [ScopeNone.selected_nodes, hn]
  · rw [overwritePrefix_length, List.length_replicate]
  · simp [ScopeNone.selected_links, hm]
  · rw [overwritePrefix_length, List.length_replicate]

/-- Claim C9, witness at counts 2 and 1 with concrete selections. -/
theorem claim_C9_witness :
    ∃ ns ls,
      ScopeNone.selected_nodes {} 2 [5, 6] = Except.ok ns ∧ ns.length = 2 ∧
      ns = overwritePrefix (List.replicate 2 { id := 0 })
        ([5, 6].map fun i => { id := i }) ∧
      ScopeNone.selected_links {} 1 [7] = Except.ok ls ∧ ls.length = 1 ∧
      ls = overwritePrefix (List.replicate 1 { id := 0 })
        ([7].map fun i => { id := i }) :=
  claim_C9 {} 2 1 2 1 [5, 6] [7] rfl rfl

/-- Claim C10: for every optional-returning query, presence is decided
solely by the native found-flag — on a true flag the out-value is wrapped
unchanged, and in particular a true flag with out-value `-1` yields a
present ID wrapping `-1`. -/
theorem claim_C10 (s : ScopeNone) (se : ScopeEditor) (v : Int) (b : Bool) :
    s.get_dropped_link true v = some { id := v } ∧
    s.get_hovered_pin true v = some { id := v } ∧
    s.get_hovered_link true v = some { id := v } ∧
    s.get_active_attribute true v = some { id := v } ∧
    se.get_active_attribute true v = some { id := v } ∧
    s.from_where_link_started true v = some { id := v } ∧
    s.from_where_link_dropped b true v = some { id := v } ∧
    s.get_hovered_pin true (-1) = some { id := -1 } := by
  simp [ScopeNone.get_dropped_link, ScopeNone.get_hovered_pin,
    ScopeNone.get_hovered_link, ScopeNone.get_active_attribute,
    ScopeEditor.get_active_attribute, ScopeNone.from_where_link_started,
    ScopeNone.from_where_link_dropped]

/-- Claim C7: every program built from the public operations emits a
well-nested begin/end primitive sequence — starting from an empty call log
it runs to completion, and in its log every end matches the most recently
opened region (strict LIFO) with no region left open. -/
theorem claim_C7 (p : Prog) :
    ∃ t : Trace, runProg p [] = Except.ok t ∧ wellNested t := by
  refine ⟨progTrace p, ?_, ?_⟩
  · simpa using runProg_eq p []
  · exact checkStack_progTrace p []

end Imnodes
